import Mathlib

/-!
Verification of the credit-simulator loan engine and batch dispatcher
(`project/api/utils/loan_simulator.py` and the dispatch logic of
`project/api/views.py`), shallowly embedded over exact rationals.

Conventions of the embedding:
* Python floats are modelled as `ℚ` (exact real-valued arithmetic).
* Python `round(x, 2)` is modelled as exact round-half-to-even on `ℚ`
  (`round2` below), CPython's documented rounding mode.
* `datetime.now()` is passed explicitly as a `today : Date` parameter.
* `multiprocessing.Pool.map` preserves input order, so it is modelled as
  `List.map`; a `poolFails : Bool` parameter selects the `except` branch
  of `simulate_batch_parallel` (the sequential fallback).
* Division on `ℚ` is total (`x / 0 = 0`); the nonzero-divisor facts are
  stated and proved separately where a claim needs them.
-/

namespace CreditSimulator

/-- A calendar date as carried by a Python `datetime`: only the `year`,
`month` and `day` fields are read by the loan simulator. -/
structure Date where
  year : Int
  month : Int
  day : Int
deriving DecidableEq, Repr

/-- Embedding of `LoanSimulator.INTEREST_RATE_TIERS`: the age-banded annual
interest-rate table, in the dict's insertion order
`{(0, 25): 0.05, (26, 40): 0.03, (41, 60): 0.02, (61, 999): 0.04}`. -/
def INTEREST_RATE_TIERS : List ((Int × Int) × ℚ) :=
  [((0, 25), 5/100), ((26, 40), 3/100), ((41, 60), 2/100), ((61, 999), 4/100)]

/-- Embedding of `LoanSimulator.calculate_age`. The source reads
`datetime.now()`; here the current date is the explicit `today` argument.
`age = today.year - birth_date.year`, minus one if today's month/day is
before the birth month/day. -/
def calculate_age (today : Date) (birth_date : Date) : Int :=
  let age := today.year - birth_date.year
  if today.month < birth_date.month ∨
      (today.month = birth_date.month ∧ today.day < birth_date.day) then
    age - 1
  else
    age

/-- The `for (min_age, max_age), rate in cls.INTEREST_RATE_TIERS.items()`
loop of `get_interest_rate_by_age`: first band with
`min_age <= age <= max_age` wins. -/
def lookupTier : List ((Int × Int) × ℚ) → Int → Option ℚ
  | [], _ => none
  | (bounds, rate) :: rest, age =>
    if bounds.1 ≤ age ∧ age ≤ bounds.2 then some rate else lookupTier rest age

/-- Embedding of `LoanSimulator.get_interest_rate_by_age`: band lookup with
default `0.04` when no band matches. -/
def get_interest_rate_by_age (age : Int) : ℚ :=
  (lookupTier INTEREST_RATE_TIERS age).getD (4/100)

/-- Embedding of `LoanSimulator.calculate_monthly_fee`:
`monthly_rate = annual_interest_rate / 12`; if it is zero the payment is
`loan_value / payment_deadline_months`, otherwise the amortization formula
`loan_value * monthly_rate / (1 - (1 + monthly_rate)^(-payment_deadline_months))`. -/
def calculate_monthly_fee (loan_value : ℚ) (annual_interest_rate : ℚ)
    (payment_deadline_months : ℕ) : ℚ :=
  let monthly_rate := annual_interest_rate / 12
  if monthly_rate = 0 then
    loan_value / payment_deadline_months
  else
    let denominator := 1 - (1 + monthly_rate) ^ (-(payment_deadline_months : ℤ))
    loan_value * monthly_rate / denominator

/-- Embedding of `LoanSimulator.calculate_total_value_to_pay`:
`monthly_payment * payment_deadline_months`. -/
def calculate_total_value_to_pay (monthly_payment : ℚ)
    (payment_deadline_months : ℕ) : ℚ :=
  monthly_payment * payment_deadline_months

/-- Python `round` to an integer: round half to even (banker's rounding),
modelled exactly on `ℚ`. -/
def pyRound (q : ℚ) : ℤ :=
  if q - ⌊q⌋ = 1/2 then
    (if 2 ∣ ⌊q⌋ then ⌊q⌋ else ⌊q⌋ + 1)
  else
    ⌊q + 1/2⌋

/-- Python `round(q, 2)`: round to the nearest hundredth, half to even. -/
def round2 (q : ℚ) : ℚ :=
  (pyRound (q * 100) : ℚ) / 100

/-- The dict returned by `LoanSimulator.simulate_loan`, field for field. -/
structure SimulationResult where
  loan_value : ℚ
  customer_age : Int
  annual_interest_rate : ℚ
  monthly_payment : ℚ
  total_value_to_pay : ℚ
  total_interest : ℚ
  payment_deadline_months : ℕ
deriving DecidableEq, Repr

/-- Embedding of `LoanSimulator.simulate_loan`. Note the source computes
`total_interest = total_value_to_pay - loan_value` from the *unrounded*
total and only rounds when building the returned dict. -/
def simulate_loan (today : Date) (loan_value : ℚ) (birth_date : Date)
    (payment_deadline_months : ℕ) : SimulationResult :=
  let age := calculate_age today birth_date
  let annual_interest_rate := get_interest_rate_by_age age
  let monthly_payment :=
    calculate_monthly_fee loan_value annual_interest_rate payment_deadline_months
  let total_value_to_pay :=
    calculate_total_value_to_pay monthly_payment payment_deadline_months
  let total_interest := total_value_to_pay - loan_value
  { loan_value := loan_value
    customer_age := age
    annual_interest_rate := annual_interest_rate
    monthly_payment := round2 monthly_payment
    total_value_to_pay := round2 total_value_to_pay
    total_interest := round2 total_interest
    payment_deadline_months := payment_deadline_months }

/-- One entry of the batch request list, after the boundary layer has
validated it and `_process_single_simulation` has parsed the
`date_of_birth` string: `value`, `date_of_birth`, `payment_deadline`. -/
structure SimulationRequest where
  value : ℚ
  date_of_birth : Date
  payment_deadline : ℕ
deriving DecidableEq, Repr

/-- Embedding of `LoanSimulator._process_single_simulation` (the date string
is already parsed into a `Date` in `SimulationRequest`). -/
def process_single_simulation (today : Date) (sim : SimulationRequest) :
    SimulationResult :=
  simulate_loan today sim.value sim.date_of_birth sim.payment_deadline

/-- The worker count handed to `mp.Pool` by `simulate_batch_parallel`
(lines 186-189): an explicit `max_workers` is used as given; `None` becomes
`min(len(simulations), cpu_count, 8)` where `cpu_count` is the value of
`os.cpu_count() or 1`. -/
def effective_max_workers (cpu_count : ℕ) (batch_length : ℕ) :
    Option ℕ → ℕ
  | none => min batch_length (min cpu_count 8)
  | some w => w

/-- Embedding of `LoanSimulator.simulate_batch_parallel`. Batches of at
most 20 items run sequentially; larger batches run `pool.map`, modelled as
`List.map` (order-preserving); if the pool raises (`poolFails = true`) the
`except` branch recomputes the batch sequentially. The `max_workers`
argument does not influence the value computed. -/
def simulate_batch_parallel (today : Date) (poolFails : Bool)
    (simulations : List SimulationRequest) (max_workers : Option ℕ) :
    List SimulationResult :=
  if simulations.length ≤ 20 then
    simulations.map (process_single_simulation today)
  else if poolFails then
    simulations.map (process_single_simulation today)
  else
    simulations.map (process_single_simulation today)

/-- The chunk loop of `simulate_batch_chunked_parallel`:
`for i in range(0, len(simulations), chunk_size)` processes
`simulations[i : i + chunk_size]` with `simulate_batch_parallel` and
extends the accumulator. (Python raises `ValueError` on a zero step;
that impossible case is modelled as `[]`.) -/
def chunkedLoop (today : Date) (poolFails : Bool) (chunk_size : ℕ)
    (max_workers : ℕ) (simulations : List SimulationRequest) :
    List SimulationResult :=
  if h : chunk_size = 0 ∨ simulations = [] then
    []
  else
    simulate_batch_parallel today poolFails (simulations.take chunk_size)
        (some max_workers) ++
      chunkedLoop today poolFails chunk_size max_workers
        (simulations.drop chunk_size)
termination_by simulations.length
decreasing_by
  push_neg at h
  simp only [List.length_drop]
  have h1 : chunk_size ≠ 0 := h.1
  have h2 : simulations ≠ [] := h.2
  have : 0 < simulations.length := List.length_pos.mpr h2
  omega

/-- Embedding of `LoanSimulator.simulate_batch_chunked_parallel`: a `None`
`max_workers` becomes `os.cpu_count() or 1` (passed here as `cpu_count`),
then the batch is processed in `chunk_size`-sized contiguous chunks. -/
def simulate_batch_chunked_parallel (today : Date) (poolFails : Bool)
    (cpu_count : ℕ) (simulations : List SimulationRequest)
    (chunk_size : ℕ) (max_workers : Option ℕ) : List SimulationResult :=
  chunkedLoop today poolFails chunk_size (max_workers.getD cpu_count)
    simulations

/-- Embedding of `LoanSimulator.get_optimal_processing_strategy`. -/
def get_optimal_processing_strategy (batch_size : ℕ) : String :=
  if batch_size ≤ 20 then "sequential"
  else if batch_size ≤ 100 then "parallel_small"
  else if batch_size ≤ 500 then "parallel_medium"
  else "parallel_chunked"

/-- The `max_workers` argument `BatchLoanSimulation.post` (views.py,
lines 106-122) passes for each parallel strategy: `4` for
`parallel_small`, `6` for `parallel_medium`, `8` for `parallel_chunked`
(the sequential strategy creates no pool). -/
def views_max_workers (strategy : String) : Option ℕ :=
  if strategy = "parallel_small" then some 4
  else if strategy = "parallel_medium" then some 6
  else if strategy = "parallel_chunked" then some 8
  else none

end CreditSimulator

namespace CreditSimulator

/-! ## Helper lemmas -/

/-- Closed form of the tier lookup: nested range tests in table order. -/
lemma rate_eq (age : Int) :
    get_interest_rate_by_age age =
      if 0 ≤ age ∧ age ≤ 25 then 5/100
      else if 26 ≤ age ∧ age ≤ 40 then 3/100
      else if 41 ≤ age ∧ age ≤ 60 then 2/100
      else if 61 ≤ age ∧ age ≤ 999 then 4/100
      else 4/100 := by
  simp only [get_interest_rate_by_age, INTEREST_RATE_TIERS, lookupTier]
  split_ifs <;> rfl

/-- The rate returned is always one of the four table entries. -/
lemma rate_mem (age : Int) :
    get_interest_rate_by_age age = 5/100 ∨ get_interest_rate_by_age age = 3/100 ∨
      get_interest_rate_by_age age = 2/100 ∨ get_interest_rate_by_age age = 4/100 := by
  rw [rate_eq]
  split_ifs <;> simp

/-- The rate returned is strictly positive. -/
lemma rate_pos (age : Int) : 0 < get_interest_rate_by_age age := by
  rcases rate_mem age with h | h | h | h <;> rw [h] <;> norm_num

/-- For a positive rate and at least one month, the amortization
denominator is strictly positive. -/
lemma denominator_pos (r : ℚ) (hr : 0 < r) (n : ℕ) (hn : 1 ≤ n) :
    0 < 1 - (1 + r / 12) ^ (-(n : ℤ)) := by
  have h12 : (0:ℚ) < r / 12 := by positivity
  have hq : 1 < 1 + r / 12 := by linarith
  have hpow : 1 < (1 + r / 12) ^ n := one_lt_pow₀ hq (by omega)
  have hz : (1 + r / 12) ^ (-(n : ℤ)) = ((1 + r / 12) ^ n)⁻¹ := by
    rw [zpow_neg, zpow_natCast]
  rw [hz]
  have : ((1 + r / 12) ^ n)⁻¹ < 1 := inv_lt_one_of_one_lt₀ hpow
  linarith

/-- Both branches of `simulate_batch_parallel` (sequential small-batch
path, `pool.map`, and the `except` fallback) are the element-wise map. -/
lemma batch_parallel_eq_map (today : Date) (poolFails : Bool)
    (sims : List SimulationRequest) (mw : Option ℕ) :
    simulate_batch_parallel today poolFails sims mw
      = sims.map (process_single_simulation today) := by
  unfold simulate_batch_parallel
  split_ifs <;> rfl

/-- The chunk loop with a positive chunk size is the element-wise map. -/
lemma chunkedLoop_eq_map (today : Date) (poolFails : Bool) {c : ℕ}
    (hc : c ≠ 0) (mw : ℕ) (l : List SimulationRequest) :
    chunkedLoop today poolFails c mw l
      = l.map (process_single_simulation today) := by
  have H : ∀ n (l : List SimulationRequest), l.length ≤ n →
      chunkedLoop today poolFails c mw l
        = l.map (process_single_simulation today) := by
    intro n
    induction n with
    | zero =>
      intro l hl
      have hnil : l = [] := List.eq_nil_of_length_eq_zero (Nat.le_zero.mp hl)
      subst hnil
      rw [chunkedLoop]
      simp
    | succ n ih =>
      intro l hl
      rw [chunkedLoop]
      by_cases hnil : l = []
      · simp [hnil]
      · rw [dif_neg (by push_neg; exact ⟨hc, hnil⟩)]
        have hlen : 0 < l.length := List.length_pos.mpr hnil
        have hdrop : (l.drop c).length ≤ n := by
          simp only [List.length_drop]
          omega
        rw [batch_parallel_eq_map, ih (l.drop c) hdrop, ← List.map_append,
          List.take_append_drop]
  exact H l.length l le_rfl

end CreditSimulator

namespace CreditSimulator

/-! ## Claim theorems -/

/-- C2: for every integer age, `get_interest_rate_by_age` returns 0.05 on
0..25, 0.03 on 26..40, 0.02 on 41..60 and 0.04 for every age ≥ 61
(including ages above 999, which fall outside all bands and take the 0.04
default); the boundary ages 25, 26, 40, 41, 60, 61 therefore resolve to
0.05, 0.03, 0.03, 0.02, 0.02, 0.04. -/
theorem interest_rate_tiers_correct (age : Int) :
    (0 ≤ age ∧ age ≤ 25 → get_interest_rate_by_age age = 5/100) ∧
    (26 ≤ age ∧ age ≤ 40 → get_interest_rate_by_age age = 3/100) ∧
    (41 ≤ age ∧ age ≤ 60 → get_interest_rate_by_age age = 2/100) ∧
    (61 ≤ age → get_interest_rate_by_age age = 4/100) := by
  refine ⟨fun h => ?_, fun h => ?_, fun h => ?_, fun h => ?_⟩ <;>
    rw [rate_eq] <;> split_ifs <;> first | rfl | omega

/-- Witness for C2 at the boundary ages and at an age above 999. -/
theorem interest_rate_tiers_correct_witness :
    get_interest_rate_by_age 25 = 5/100 ∧ get_interest_rate_by_age 26 = 3/100 ∧
    get_interest_rate_by_age 40 = 3/100 ∧ get_interest_rate_by_age 41 = 2/100 ∧
    get_interest_rate_by_age 60 = 2/100 ∧ get_interest_rate_by_age 61 = 4/100 ∧
    get_interest_rate_by_age 1000 = 4/100 :=
  ⟨(interest_rate_tiers_correct 25).1 (by decide),
   (interest_rate_tiers_correct 26).2.1 (by decide),
   (interest_rate_tiers_correct 40).2.1 (by decide),
   (interest_rate_tiers_correct 41).2.2.1 (by decide),
   (interest_rate_tiers_correct 60).2.2.1 (by decide),
   (interest_rate_tiers_correct 61).2.2.2 (by decide),
   (interest_rate_tiers_correct 1000).2.2.2 (by decide)⟩

/-- C10: for every negative age (which `calculate_age` can produce for a
future birth date), no band's lower bound matches, so
`get_interest_rate_by_age` falls through to the 0.04 default. -/
theorem negative_age_gets_default_rate (age : Int) (h : age < 0) :
    get_interest_rate_by_age age = 4/100 := by
  rw [rate_eq]
  split_ifs <;> first | rfl | omega

/-- Witness for C10 at age -1 (and a future birth date producing it). -/
theorem negative_age_gets_default_rate_witness :
    get_interest_rate_by_age (-1) = 4/100 ∧
    get_interest_rate_by_age (calculate_age ⟨2020, 6, 15⟩ ⟨2021, 1, 1⟩) = 4/100 :=
  ⟨negative_age_gets_default_rate (-1) (by decide),
   negative_age_gets_default_rate (calculate_age ⟨2020, 6, 15⟩ ⟨2021, 1, 1⟩)
     (by decide)⟩

/-- C7: `calculate_age` returns the difference of the calendar years minus
one exactly when today's (month, day) is lexicographically before the birth
(month, day); in particular birth 1990-01-01 as of 2023-12-31 gives 33 and
birth 1990-12-31 as of 2023-06-15 gives 32. -/
theorem calculate_age_correct (today birth : Date) :
    calculate_age today birth =
      today.year - birth.year -
        (if today.month < birth.month ∨
            (today.month = birth.month ∧ today.day < birth.day) then 1 else 0) ∧
    calculate_age ⟨2023, 12, 31⟩ ⟨1990, 1, 1⟩ = 33 ∧
    calculate_age ⟨2023, 6, 15⟩ ⟨1990, 12, 31⟩ = 32 := by
  refine ⟨?_, by decide, by decide⟩
  unfold calculate_age
  split_ifs <;> ring

/-- C4: `get_optimal_processing_strategy` is a pure function of the batch
size returning "sequential" on 1..20, "parallel_small" on 21..100,
"parallel_medium" on 101..500 and "parallel_chunked" on 501..10000. -/
theorem strategy_selection_correct (n : ℕ) :
    (1 ≤ n ∧ n ≤ 20 → get_optimal_processing_strategy n = "sequential") ∧
    (21 ≤ n ∧ n ≤ 100 → get_optimal_processing_strategy n = "parallel_small") ∧
    (101 ≤ n ∧ n ≤ 500 → get_optimal_processing_strategy n = "parallel_medium") ∧
    (501 ≤ n ∧ n ≤ 10000 →
      get_optimal_processing_strategy n = "parallel_chunked") := by
  refine ⟨fun h => ?_, fun h => ?_, fun h => ?_, fun h => ?_⟩ <;>
    unfold get_optimal_processing_strategy <;> split_ifs <;>
    first | rfl | omega

/-- Witness for C4 at one batch size inside each band. -/
theorem strategy_selection_correct_witness :
    get_optimal_processing_strategy 10 = "sequential" ∧
    get_optimal_processing_strategy 50 = "parallel_small" ∧
    get_optimal_processing_strategy 300 = "parallel_medium" ∧
    get_optimal_processing_strategy 1000 = "parallel_chunked" :=
  ⟨(strategy_selection_correct 10).1 (by decide),
   (strategy_selection_correct 50).2.1 (by decide),
   (strategy_selection_correct 300).2.2.1 (by decide),
   (strategy_selection_correct 1000).2.2.2 (by decide)⟩

end CreditSimulator

namespace CreditSimulator

/-- C8: for every principal and term ≥ 1, `calculate_monthly_fee` returns
exactly `principal / term_months` when the annual rate is zero, and
`principal * (rate/12) / (1 - (1 + rate/12)^(-term_months))` otherwise. -/
theorem monthly_fee_formula (P r : ℚ) (n : ℕ) (hn : 1 ≤ n) :
    (r = 0 → calculate_monthly_fee P r n = P / n) ∧
    (r ≠ 0 → calculate_monthly_fee P r n =
      P * (r / 12) / (1 - (1 + r / 12) ^ (-(n : ℤ)))) := by
  constructor
  · rintro rfl
    simp [calculate_monthly_fee]
  · intro h0
    have h12 : r / 12 ≠ 0 := div_ne_zero h0 (by norm_num)
    simp only [calculate_monthly_fee, if_neg h12]

/-- Witness for C8: the zero-rate branch at 12000 over 12 months and the
amortization branch at 10000, 12% annual, 12 months. -/
theorem monthly_fee_formula_witness :
    1 ≤ 12 ∧ calculate_monthly_fee 12000 0 12 = 12000 / 12 ∧
    calculate_monthly_fee 10000 (12/100) 12 =
      10000 * (12/100 / 12) / (1 - (1 + 12/100 / 12) ^ (-(12 : ℤ))) :=
  ⟨by decide,
   (monthly_fee_formula 12000 0 12 (by decide)).1 rfl,
   (monthly_fee_formula 10000 (12/100) 12 (by decide)).2 (by norm_num)⟩

/-- C9: the rate selected for any age is one of 0.02, 0.03, 0.04, 0.05 —
always positive — so inside `simulate_loan` the `monthly_rate == 0` branch
of `calculate_monthly_fee` is never taken, and for term ≥ 1 the
denominator `1 - (1 + monthly_rate)^(-term)` is nonzero: every divisor in
the simulation is nonzero. -/
theorem simulate_loan_no_division_by_zero (today birth : Date) (P : ℚ)
    (n : ℕ) (hn : 1 ≤ n) :
    (get_interest_rate_by_age (calculate_age today birth) = 5/100 ∨
     get_interest_rate_by_age (calculate_age today birth) = 3/100 ∨
     get_interest_rate_by_age (calculate_age today birth) = 2/100 ∨
     get_interest_rate_by_age (calculate_age today birth) = 4/100) ∧
    get_interest_rate_by_age (calculate_age today birth) / 12 ≠ 0 ∧
    1 - (1 + get_interest_rate_by_age (calculate_age today birth) / 12) ^
        (-(n : ℤ)) ≠ 0 ∧
    calculate_monthly_fee P (get_interest_rate_by_age (calculate_age today birth)) n =
      P * (get_interest_rate_by_age (calculate_age today birth) / 12) /
        (1 - (1 + get_interest_rate_by_age (calculate_age today birth) / 12) ^
          (-(n : ℤ))) := by
  have hr : 0 < get_interest_rate_by_age (calculate_age today birth) :=
    rate_pos _
  have h12 : get_interest_rate_by_age (calculate_age today birth) / 12 ≠ 0 :=
    div_ne_zero (ne_of_gt hr) (by norm_num)
  have hden := denominator_pos _ hr n hn
  refine ⟨rate_mem _, h12, ne_of_gt hden, ?_⟩
  simp only [calculate_monthly_fee, if_neg h12]

/-- Witness for C9 at a concrete date pair (age 20, rate 0.05) and a
12-month term. -/
theorem simulate_loan_no_division_by_zero_witness :
    1 ≤ 12 ∧
    get_interest_rate_by_age (calculate_age ⟨2020, 6, 15⟩ ⟨2000, 1, 1⟩) / 12 ≠ 0 ∧
    1 - (1 + get_interest_rate_by_age (calculate_age ⟨2020, 6, 15⟩ ⟨2000, 1, 1⟩) / 12) ^
        (-(12 : ℤ)) ≠ 0 :=
  ⟨by decide,
   (simulate_loan_no_division_by_zero ⟨2020, 6, 15⟩ ⟨2000, 1, 1⟩ 1 12
     (by decide)).2.1,
   (simulate_loan_no_division_by_zero ⟨2020, 6, 15⟩ ⟨2000, 1, 1⟩ 1 12
     (by decide)).2.2.1⟩

end CreditSimulator

namespace CreditSimulator

/-- C3: for every batch of 1..10000 requests, under the sequential path,
the pool path with any worker count, and the chunked path with chunk size
100 (whether or not the pool fails), the result is the element-wise map of
the single simulation over the input, so `result[i]` is the simulation of
`requests[i]` for every index and output order equals input order; the
chunked loop is equivalent to the plain sequential map. -/
theorem batch_results_elementwise (today : Date) (poolFails : Bool)
    (mw : Option ℕ) (cpu : ℕ) (sims : List SimulationRequest)
    (h1 : 1 ≤ sims.length) (h2 : sims.length ≤ 10000) :
    simulate_batch_parallel today poolFails sims mw
      = sims.map (process_single_simulation today) ∧
    simulate_batch_chunked_parallel today poolFails cpu sims 100 mw
      = sims.map (process_single_simulation today) ∧
    (∀ i : ℕ,
      (simulate_batch_parallel today poolFails sims mw)[i]?
        = (sims[i]?).map (process_single_simulation today) ∧
      (simulate_batch_chunked_parallel today poolFails cpu sims 100 mw)[i]?
        = (sims[i]?).map (process_single_simulation today)) := by
  have hp := batch_parallel_eq_map today poolFails sims mw
  have hc : simulate_batch_chunked_parallel today poolFails cpu sims 100 mw
      = sims.map (process_single_simulation today) := by
    unfold simulate_batch_chunked_parallel
    exact chunkedLoop_eq_map today poolFails (by norm_num) _ sims
  refine ⟨hp, hc, fun i => ⟨?_, ?_⟩⟩
  · rw [hp, List.getElem?_map]
  · rw [hc, List.getElem?_map]

/-- Witness for C3 on a concrete singleton batch. -/
theorem batch_results_elementwise_witness :
    (1 ≤ ([⟨1000, ⟨1990, 1, 1⟩, 12⟩] : List SimulationRequest).length ∧
      ([⟨1000, ⟨1990, 1, 1⟩, 12⟩] : List SimulationRequest).length ≤ 10000) ∧
    simulate_batch_parallel ⟨2024, 1, 1⟩ false [⟨1000, ⟨1990, 1, 1⟩, 12⟩] none
      = ([⟨1000, ⟨1990, 1, 1⟩, 12⟩] : List SimulationRequest).map
          (process_single_simulation ⟨2024, 1, 1⟩) ∧
    simulate_batch_chunked_parallel ⟨2024, 1, 1⟩ false 4
        [⟨1000, ⟨1990, 1, 1⟩, 12⟩] 100 none
      = ([⟨1000, ⟨1990, 1, 1⟩, 12⟩] : List SimulationRequest).map
          (process_single_simulation ⟨2024, 1, 1⟩) :=
  ⟨⟨by decide, by decide⟩,
   (batch_results_elementwise ⟨2024, 1, 1⟩ false none 4
     [⟨1000, ⟨1990, 1, 1⟩, 12⟩] (by decide) (by decide)).1,
   (batch_results_elementwise ⟨2024, 1, 1⟩ false none 4
     [⟨1000, ⟨1990, 1, 1⟩, 12⟩] (by decide) (by decide)).2.1⟩

/-- C5: if the worker pool fails (`poolFails = true`), both the parallel
and the chunked-parallel dispatchers fall back to sequential processing of
the same batch and return exactly the list the sequential map produces —
the same value as the successful-pool run, with no item lost and no error
surfaced (the functions return an ordinary list, not an error). -/
theorem pool_failure_sequential_fallback (today : Date)
    (sims : List SimulationRequest) (mw : Option ℕ) (cpu : ℕ) :
    simulate_batch_parallel today true sims mw
      = simulate_batch_parallel today false sims mw ∧
    simulate_batch_parallel today true sims mw
      = sims.map (process_single_simulation today) ∧
    (simulate_batch_parallel today true sims mw).length = sims.length ∧
    simulate_batch_chunked_parallel today true cpu sims 100 mw
      = simulate_batch_chunked_parallel today false cpu sims 100 mw ∧
    simulate_batch_chunked_parallel today true cpu sims 100 mw
      = sims.map (process_single_simulation today) := by
  have h1 := batch_parallel_eq_map today true sims mw
  have h2 := batch_parallel_eq_map today false sims mw
  have h3 : ∀ b, simulate_batch_chunked_parallel today b cpu sims 100 mw
      = sims.map (process_single_simulation today) := fun b =>
    chunkedLoop_eq_map today b (by norm_num) _ sims
  refine ⟨h1.trans h2.symm, h1, ?_, (h3 true).trans (h3 false).symm, h3 true⟩
  rw [h1, List.length_map]

end CreditSimulator

namespace CreditSimulator

/-- C1 as stated is false: at principal 100.0051, birth 2000-01-01
evaluated on 2020-06-15 (age 20, rate 0.05) and a 12-month term, the
returned `total_interest` is 2.73 — `round2` of the *unrounded*
`total_value_to_pay` minus the principal — whereas
`round(round(total_payable, 2) - principal, 2)` is 2.72. -/
theorem total_interest_rounding_counterexample :
    (simulate_loan ⟨2020, 6, 15⟩ (1000051/10000) ⟨2000, 1, 1⟩ 12).total_interest
      = 273/100 ∧
    round2 ((simulate_loan ⟨2020, 6, 15⟩ (1000051/10000) ⟨2000, 1, 1⟩
        12).total_value_to_pay - 1000051/10000) = 272/100 ∧
    (simulate_loan ⟨2020, 6, 15⟩ (1000051/10000) ⟨2000, 1, 1⟩ 12).total_interest
      ≠ round2 ((simulate_loan ⟨2020, 6, 15⟩ (1000051/10000) ⟨2000, 1, 1⟩
          12).total_value_to_pay - 1000051/10000) := by
  have hage : calculate_age ⟨2020, 6, 15⟩ ⟨2000, 1, 1⟩ = 20 := by decide
  have hrate : get_interest_rate_by_age 20 = 5/100 := by
    norm_num [get_interest_rate_by_age, INTEREST_RATE_TIERS, lookupTier]
  have hfee : calculate_monthly_fee (1000051/10000) (5/100) 12
      = 2953135042374565425117954045869887/344944668208420258165123288800000 := by
    norm_num [calculate_monthly_fee]
  have htot : calculate_total_value_to_pay
      (2953135042374565425117954045869887/344944668208420258165123288800000) 12
      = 2953135042374565425117954045869887/28745389017368354847093607400000 := by
    norm_num [calculate_total_value_to_pay]
  have hti : round2
      (2953135042374565425117954045869887/28745389017368354847093607400000
        - 1000051/10000) = 273/100 := by
    norm_num [round2, pyRound]
  have htv : round2
      (2953135042374565425117954045869887/28745389017368354847093607400000)
      = 10273/100 := by
    norm_num [round2, pyRound]
  have hcl : round2 ((10273 : ℚ)/100 - 1000051/10000) = 272/100 := by
    norm_num [round2, pyRound]
  have e1 : (simulate_loan ⟨2020, 6, 15⟩ (1000051/10000) ⟨2000, 1, 1⟩
      12).total_interest = 273/100 := by
    show round2 (calculate_total_value_to_pay
      (calculate_monthly_fee (1000051/10000)
        (get_interest_rate_by_age (calculate_age ⟨2020, 6, 15⟩ ⟨2000, 1, 1⟩)) 12)
      12 - 1000051/10000) = 273/100
    rw [hage, hrate, hfee, htot, hti]
  have e2 : (simulate_loan ⟨2020, 6, 15⟩ (1000051/10000) ⟨2000, 1, 1⟩
      12).total_value_to_pay = 10273/100 := by
    show round2 (calculate_total_value_to_pay
      (calculate_monthly_fee (1000051/10000)
        (get_interest_rate_by_age (calculate_age ⟨2020, 6, 15⟩ ⟨2000, 1, 1⟩)) 12)
      12) = 10273/100
    rw [hage, hrate, hfee, htot, htv]
  refine ⟨e1, ?_, ?_⟩
  · rw [e2, hcl]
  · rw [e1, e2, hcl]
    norm_num

/-- C1 amended: `simulate_loan` rounds `monthly_payment` and
`total_value_to_pay` to 2 decimals in the returned record, but
`total_interest` is computed from the *unrounded* total before its own
rounding: `total_interest = round(unrounded_total_payable - principal, 2)`,
not `round(round(total_payable, 2) - principal, 2)`. -/
theorem total_interest_rounds_after_subtracting (today birth : Date)
    (P : ℚ) (n : ℕ) (hn : 1 ≤ n) :
    (simulate_loan today P birth n).monthly_payment
      = round2 (calculate_monthly_fee P
          (get_interest_rate_by_age (calculate_age today birth)) n) ∧
    (simulate_loan today P birth n).total_value_to_pay
      = round2 (calculate_total_value_to_pay
          (calculate_monthly_fee P
            (get_interest_rate_by_age (calculate_age today birth)) n) n) ∧
    (simulate_loan today P birth n).total_interest
      = round2 (calculate_total_value_to_pay
          (calculate_monthly_fee P
            (get_interest_rate_by_age (calculate_age today birth)) n) n - P) :=
  ⟨rfl, rfl, rfl⟩

/-- Witness for the amended C1 at a concrete input. -/
theorem total_interest_rounds_after_subtracting_witness :
    1 ≤ 12 ∧
    (simulate_loan ⟨2024, 1, 1⟩ 1000 ⟨1990, 1, 1⟩ 12).total_interest
      = round2 (calculate_total_value_to_pay
          (calculate_monthly_fee 1000
            (get_interest_rate_by_age (calculate_age ⟨2024, 1, 1⟩ ⟨1990, 1, 1⟩))
            12) 12 - 1000) :=
  ⟨by decide,
   (total_interest_rounds_after_subtracting ⟨2024, 1, 1⟩ ⟨1990, 1, 1⟩ 1000 12
     (by decide)).2.2⟩

end CreditSimulator

namespace CreditSimulator

/-- C6 as stated is false: the views pass the cap as an explicit
`max_workers`, and `simulate_batch_parallel` hands an explicit
`max_workers` to `mp.Pool` as given, without taking the minimum with the
CPU count or the batch length. On a 2-CPU machine a 21-item batch runs the
`parallel_small` strategy with a pool of 4 workers, not
`min(21, 2, 4) = 2`. -/
theorem worker_pool_size_counterexample :
    get_optimal_processing_strategy 21 = "parallel_small" ∧
    views_max_workers "parallel_small" = some 4 ∧
    effective_max_workers 2 21 (some 4) = 4 ∧
    min 21 (min 2 4) = 2 ∧
    effective_max_workers 2 21 (some 4) ≠ min 21 (min 2 4) := by
  refine ⟨rfl, rfl, rfl, by decide, by decide⟩

/-- C6 amended: the worker pool size actually used is exactly the
designated cap whenever `max_workers` is passed explicitly — as the views
do: 4 for batches of 21-100, 6 for 101-500, 8 per chunk for 501-10000 —
independent of CPU count and batch length; the formula
`min(batch length, CPU count, 8)` applies only when `max_workers` is
`None`. -/
theorem worker_pool_size_caps (cpu len w n : ℕ) :
    effective_max_workers cpu len (some w) = w ∧
    effective_max_workers cpu len none = min len (min cpu 8) ∧
    (21 ≤ n ∧ n ≤ 100 →
      views_max_workers (get_optimal_processing_strategy n) = some 4) ∧
    (101 ≤ n ∧ n ≤ 500 →
      views_max_workers (get_optimal_processing_strategy n) = some 6) ∧
    (501 ≤ n ∧ n ≤ 10000 →
      views_max_workers (get_optimal_processing_strategy n) = some 8) := by
  refine ⟨rfl, rfl, fun h => ?_, fun h => ?_, fun h => ?_⟩
  · have hs : get_optimal_processing_strategy n = "parallel_small" := by
      unfold get_optimal_processing_strategy
      split_ifs <;> first | rfl | omega
    rw [hs]
    rfl
  · have hs : get_optimal_processing_strategy n = "parallel_medium" := by
      unfold get_optimal_processing_strategy
      split_ifs <;> first | rfl | omega
    rw [hs]
    rfl
  · have hs : get_optimal_processing_strategy n = "parallel_chunked" := by
      unfold get_optimal_processing_strategy
      split_ifs <;> first | rfl | omega
    rw [hs]
    rfl

/-- Witness for the amended C6 at a batch size in each parallel band. -/
theorem worker_pool_size_caps_witness :
    (21 ≤ 21 ∧ 21 ≤ 100) ∧ (101 ≤ 101 ∧ 101 ≤ 500) ∧
    (501 ≤ 501 ∧ 501 ≤ 10000) ∧
    effective_max_workers 2 21 (some 4) = 4 ∧
    views_max_workers (get_optimal_processing_strategy 21) = some 4 ∧
    views_max_workers (get_optimal_processing_strategy 101) = some 6 ∧
    views_max_workers (get_optimal_processing_strategy 501) = some 8 :=
  ⟨by decide, by decide, by decide,
   (worker_pool_size_caps 2 21 4 21).1,
   (worker_pool_size_caps 2 21 4 21).2.2.1 (by decide),
   (worker_pool_size_caps 2 21 4 101).2.2.2.1 (by decide),
   (worker_pool_size_caps 2 21 4 501).2.2.2.2 (by decide)⟩

end CreditSimulator
